import Mathlib

/-!
Shallow embedding of `src/anki_bot.py` (class `SimpleAnkiBot` and `main`).

The durable completion store is the JSON file `completion_status.json`: a
mapping from ISO date strings to booleans.  We model it as an association
list with Python-dict lookup/assignment semantics (`status.get(d, False)`,
`status[d] = True`).  Outbound sends are recorded as a trace of
(message-kind, transport-succeeded) pairs; the text and image chosen by
`random.choice` are content-only concerns and are not part of the model.
The current date returned by `get_moscow_time().date().isoformat()` is
passed to each operation as an explicit argument `d`.
-/

namespace AnkiBot

/-- Kind of outbound message the bot attempts to send. -/
inductive MsgKind where
  | primary
  | followup
  | congratulation
  deriving DecidableEq, Repr, BEq

/-- State of the file `completion_status.json` as observed by a read:
absent (Python `open` raises `FileNotFoundError`), present with parsed
content `m`, or failing for any other reason (permission error, invalid
JSON, ...), which Python surfaces as an exception other than
`FileNotFoundError`. -/
inductive FileRead where
  | missing
  | content (m : List (String × Bool))
  | failure
  deriving DecidableEq, Repr

/-- The one modelled error: a durable-store read raised an exception other
than `FileNotFoundError`. -/
inductive BotError where
  | storeError
  deriving DecidableEq, Repr

abbrev StatusMap := List (String × Bool)

/-- `SimpleAnkiBot.load_completion_status` (anki_bot.py lines 104-110):
`try: return json.load(open(...)) except FileNotFoundError: return {}`.
Only `FileNotFoundError` is caught; any other failure propagates. -/
def load_completion_status : FileRead → Except BotError StatusMap
  | .missing => .ok []
  | .content m => .ok m
  | .failure => .error .storeError

/-- Python `status.get(d, False)`. -/
def statusGet (m : StatusMap) (d : String) : Bool :=
  (List.lookup d m).getD false

/-- Python `status[d] = v`: replace the value at an existing key, else
append a new entry (JSON dicts have unique keys). -/
def statusSet : StatusMap → String → Bool → StatusMap
  | [], d, v => [(d, v)]
  | (k, w) :: rest, d, v =>
    if k == d then (k, v) :: rest else (k, w) :: statusSet rest d v

/-- `SimpleAnkiBot.save_completion_status` (lines 112-115): writes `m` as
the new file content. -/
def save_completion_status (m : StatusMap) : FileRead :=
  .content m

/-- `SimpleAnkiBot.is_completed_today` (lines 117-121): load the store and
return `status.get(current_date, False)`. -/
def is_completed_today (d : String) (file : FileRead) : Except BotError Bool := do
  let m ← load_completion_status file
  pure (statusGet m d)

/-- `SimpleAnkiBot.mark_completed_today` (lines 123-129): load the store,
set `status[current_date] = True`, save. -/
def mark_completed_today (d : String) (file : FileRead) : Except BotError FileRead := do
  let m ← load_completion_status file
  pure (save_completion_status (statusSet m d true))

/-- The observable state of the bot process: the durable store file and the
trace of attempted outbound sends (kind, whether the transport call
succeeded). -/
structure BotState where
  file : FileRead
  sent : List (MsgKind × Bool)
  deriving DecidableEq, Repr

/-- `SimpleAnkiBot.send_message_with_image` (lines 135-154): attempts one
send; every exception from the transport is caught and logged, so the
call always returns normally.  `ok` records whether the transport
succeeded; the attempt is appended to the trace either way and nothing
else changes. -/
def send_message_with_image (ok : Bool) (k : MsgKind) (s : BotState) : BotState :=
  { s with sent := s.sent ++ [(k, ok)] }

/-- `SimpleAnkiBot.send_daily_reminder` (lines 198-215): if
`is_completed_today()` then return without sending, else attempt to send a
primary reminder.  There is no try/except in this method, so a store read
failure propagates to the caller (the scheduler). -/
def send_daily_reminder (ok : Bool) (d : String) (s : BotState) : Except BotError BotState := do
  let c ← is_completed_today d s.file
  if c then pure s
  else pure (send_message_with_image ok .primary s)

/-- `SimpleAnkiBot.send_followup_reminder` (lines 217-234): same shape as
the daily reminder but sends a follow-up message; the only guard is
`is_completed_today()`. -/
def send_followup_reminder (ok : Bool) (d : String) (s : BotState) : Except BotError BotState := do
  let c ← is_completed_today d s.file
  if c then pure s
  else pure (send_message_with_image ok .followup s)

/-- `SimpleAnkiBot.reset_daily_flags` (lines 236-238): logs only, touches
no state. -/
def reset_daily_flags (s : BotState) : BotState :=
  s

/-- `SimpleAnkiBot.handle_image_message` (lines 160-196): inside a
`try/except Exception` wrapper: drop the event if the chat does not match
or the message has no photo; if `is_completed_today()` drop it as a
duplicate; otherwise `mark_completed_today()` (which persists) and then
attempt the congratulation send.  The wrapper means the method never
propagates an exception; an exception can only arise from the store read,
which happens before any write, so on error the state is unchanged. -/
def handle_image_message (chatMatches hasPhoto ok : Bool) (d : String) (s : BotState) :
    BotState :=
  let run : Except BotError BotState := do
    if !chatMatches then pure s
    else if !hasPhoto then pure s
    else do
      let c ← is_completed_today d s.file
      if c then pure s
      else do
        let f ← mark_completed_today d s.file
        pure (send_message_with_image ok .congratulation { s with file := f })
  match run with
  | .ok s1 => s1
  | .error _ => s

/-- The four scheduled/inbound entry points, with the transport health and
current date of each invocation. -/
inductive Op where
  | daily (ok : Bool) (d : String)
  | followup (ok : Bool) (d : String)
  | midnight
  | activity (chatMatches hasPhoto ok : Bool) (d : String)

/-- An exception escaping a trigger callback reaches the scheduler, which
logs it; the raise happens at the store read, before any write or send, so
the observable state is the pre-call state. -/
def exceptStep (s : BotState) : Except BotError BotState → BotState
  | .ok s1 => s1
  | .error _ => s

/-- One entry-point invocation as a total step on the observable state. -/
def stepOp : Op → BotState → BotState
  | .daily ok d, s => exceptStep s (send_daily_reminder ok d s)
  | .followup ok d, s => exceptStep s (send_followup_reminder ok d s)
  | .midnight, s => reset_daily_flags s
  | .activity cm hp ok d, s => handle_image_message cm hp ok d s

/-- A sequence of entry-point invocations. -/
def runOps (ops : List Op) (s : BotState) : BotState :=
  ops.foldl (fun s o => stepOp o s) s

/-- Whether the durable store records date `d` as completed (a failing or
absent store records nothing). -/
def completedIn (s : BotState) (d : String) : Bool :=
  match s.file with
  | .content m => statusGet m d
  | _ => false

/-- Number of sends of kind `k` in a trace. -/
def countKind (k : MsgKind) (l : List (MsgKind × Bool)) : Nat :=
  (l.filter (fun p => p.1 == k)).length

/-- Accumulator pass over decimal digits; `none` as soon as a non-digit
appears (Python `int()` raises `ValueError` on any non-digit). -/
def pyDigitsAux : List Char → Nat → Option Nat
  | [], acc => some acc
  | c :: cs, acc => if c.isDigit then pyDigitsAux cs (acc * 10 + (c.toNat - 48)) else none

/-- Models CPython `int(str)` on the inputs relevant to configuration
validation: an optional sign followed by decimal digits parses to `some n`;
anything else is `none` (Python raises `ValueError`).  CPython additionally
strips surrounding whitespace and allows underscores between digits, which
no claim exercises. -/
def pyInt? (s : String) : Option Int :=
  match s.data with
  | [] => none
  | '-' :: cs => if cs = [] then none else (pyDigitsAux cs 0).map (fun n => -(n : Int))
  | '+' :: cs => if cs = [] then none else (pyDigitsAux cs 0).map (fun n => (n : Int))
  | cs => (pyDigitsAux cs 0).map (fun n => (n : Int))

/-- Configuration errors raised by `SimpleAnkiBot.__init__` as
`ValueError`s (lines 34-48). -/
inductive ConfigError where
  | missingToken
  | missingChatId
  | invalidChatId
  deriving DecidableEq, Repr

/-- `SimpleAnkiBot.__init__` (lines 34-48): reads `TELEGRAM_TOKEN` and
`CHAT_ID` from the environment (`none` = unset; Python `if not s` also
treats the empty string as missing), raises `ValueError` when either is
missing or `CHAT_ID` is not an integer, and otherwise stores the parsed
chat id.  All of this happens before any scheduler is created or any job
is registered. -/
def SimpleAnkiBot_init (token chatId : Option String) : Except ConfigError Int :=
  match token with
  | none => .error .missingToken
  | some t =>
    if t = "" then .error .missingToken
    else
      match chatId with
      | none => .error .missingChatId
      | some c =>
        if c = "" then .error .missingChatId
        else
          match pyInt? c with
          | some n => .ok n
          | none => .error .invalidChatId

/-- Exit status of the process when `SimpleAnkiBot()` raises in `main`
(lines 359-388): `main`'s `except Exception` clause logs the error and
falls through; the `finally` block sees `bot_instance = None` and does
nothing; `main` returns normally, `asyncio.run(main())` completes without
exception, the top-level `except Exception: sys.exit(1)` handler is never
reached, and the interpreter exits with status 0.  `none` means the
configuration was accepted and startup proceeds into `start_bot` (not
modelled further). -/
def main_exit_after_init (token chatId : Option String) : Option Nat :=
  match SimpleAnkiBot_init token chatId with
  | .error _ => some 0
  | .ok _ => none

/-! ### Helper lemmas about the store map -/

theorem lookup_statusSet_self (m : StatusMap) (d : String) (v : Bool) :
    List.lookup d (statusSet m d v) = some v := by
  induction m with
  | nil => simp [statusSet, List.lookup]
  | cons kv rest ih =>
    obtain ⟨k, w⟩ := kv
    by_cases h : k = d
    · subst h
      simp [statusSet, List.lookup]
    · simp [statusSet, List.lookup, beq_eq_false_iff_ne.mpr h,
        beq_eq_false_iff_ne.mpr (Ne.symm h), ih]

theorem lookup_statusSet_ne (m : StatusMap) (d e : String) (v : Bool) (h : ¬ d = e) :
    List.lookup d (statusSet m e v) = List.lookup d m := by
  induction m with
  | nil => simp [statusSet, List.lookup, beq_eq_false_iff_ne.mpr h]
  | cons kv rest ih =>
    obtain ⟨k, w⟩ := kv
    by_cases hk : k = e
    · subst hk
      simp [statusSet, List.lookup, beq_eq_false_iff_ne.mpr h]
    · by_cases hd : d = k
      · subst hd
        simp [statusSet, List.lookup, beq_eq_false_iff_ne.mpr hk]
      · simp [statusSet, List.lookup, beq_eq_false_iff_ne.mpr hk,
          beq_eq_false_iff_ne.mpr hd, ih]

theorem statusGet_statusSet (m : StatusMap) (d e : String) (v : Bool) :
    statusGet (statusSet m e v) d = if d = e then v else statusGet m d := by
  by_cases h : d = e
  · subst h
    simp [statusGet, lookup_statusSet_self]
  · simp [statusGet, lookup_statusSet_ne m d e v h, h]

/-! ### Evaluation lemmas for the operations -/

theorem is_completed_today_content (d : String) (m : StatusMap) :
    is_completed_today d (.content m) = .ok (statusGet m d) :=
  rfl

theorem is_completed_today_missing (d : String) :
    is_completed_today d .missing = .ok false :=
  rfl

theorem is_completed_today_failure (d : String) :
    is_completed_today d .failure = .error .storeError :=
  rfl

theorem mark_completed_today_content (d : String) (m : StatusMap) :
    mark_completed_today d (.content m) = .ok (.content (statusSet m d true)) :=
  rfl

theorem send_daily_reminder_content (ok : Bool) (d : String) (m : StatusMap)
    (l : List (MsgKind × Bool)) :
    send_daily_reminder ok d { file := .content m, sent := l }
      = .ok (if statusGet m d then { file := .content m, sent := l }
             else { file := .content m, sent := l ++ [(.primary, ok)] }) := by
  by_cases h : statusGet m d <;>
    simp [send_daily_reminder, is_completed_today, load_completion_status,
      send_message_with_image, h, Bind.bind, Except.bind, pure, Except.pure]

theorem send_followup_reminder_content (ok : Bool) (d : String) (m : StatusMap)
    (l : List (MsgKind × Bool)) :
    send_followup_reminder ok d { file := .content m, sent := l }
      = .ok (if statusGet m d then { file := .content m, sent := l }
             else { file := .content m, sent := l ++ [(.followup, ok)] }) := by
  by_cases h : statusGet m d <;>
    simp [send_followup_reminder, is_completed_today, load_completion_status,
      send_message_with_image, h, Bind.bind, Except.bind, pure, Except.pure]

theorem handle_image_message_content (cm hp ok : Bool) (d : String) (m : StatusMap)
    (l : List (MsgKind × Bool)) :
    handle_image_message cm hp ok d { file := .content m, sent := l }
      = if cm && hp && !(statusGet m d) then
          { file := .content (statusSet m d true), sent := l ++ [(.congratulation, ok)] }
        else { file := .content m, sent := l } := by
  cases cm <;> cases hp <;> by_cases h : statusGet m d <;>
    simp [handle_image_message, is_completed_today, mark_completed_today,
      load_completion_status, save_completion_status, send_message_with_image, h,
      Bind.bind, Except.bind, pure, Except.pure]

/-! ### Claims -/

/-- C1, counterexample: starting from an empty store with no activity
observed, firing the daily trigger twice on the same date 2024-01-10 sends
two primary reminders, not at most one — `send_daily_reminder` keeps no
record of having already fired. -/
theorem daily_trigger_twice_cex :
    countKind .primary (stepOp (.daily true "2024-01-10")
      (stepOp (.daily true "2024-01-10")
        { file := .content [], sent := [] })).sent = 2 := by
  rfl

/-- C1, amended: firing the daily trigger twice on the same date `d` sends
no primary reminder when activity has been observed for `d`, and sends one
primary reminder per call (two in total) when it has not; the store is
unchanged either way. -/
theorem daily_trigger_twice_amended (m : StatusMap) (d : String) (ok ok1 : Bool)
    (l : List (MsgKind × Bool)) :
    stepOp (.daily ok1 d) (stepOp (.daily ok d) { file := .content m, sent := l })
      = { file := .content m,
          sent := l ++ (if statusGet m d then [] else [(.primary, ok), (.primary, ok1)]) } := by
  by_cases h : statusGet m d <;>
    simp [stepOp, exceptStep, send_daily_reminder_content, h]

/-- C2, counterexample: from an empty store and an empty send trace — so
the primary reminder has never fired for any date — the follow-up trigger
still sends a follow-up reminder, because `send_followup_reminder` only
checks `is_completed_today()` and the code keeps no `reminderSent` flag. -/
theorem followup_without_primary_cex :
    countKind .primary ([] : List (MsgKind × Bool)) = 0 ∧
    (stepOp (.followup true "2024-01-10")
        { file := .content [], sent := [] }).sent = [(.followup, true)] := by
  exact ⟨rfl, rfl⟩

/-- C2, amended: the follow-up trigger sends a follow-up reminder iff the
completion status for the current date is false at call time, regardless
of whether the primary reminder ever fired; the store is unchanged. -/
theorem followup_iff_not_completed (ok : Bool) (d : String) (m : StatusMap)
    (l : List (MsgKind × Bool)) :
    send_followup_reminder ok d { file := .content m, sent := l }
      = .ok { file := .content m,
              sent := if statusGet m d then l else l ++ [(.followup, ok)] } := by
  by_cases h : statusGet m d <;>
    simp [send_followup_reminder_content, h]

/-- C3: with `TELEGRAM_TOKEN` unset (and `CHAT_ID` set to "123"),
`SimpleAnkiBot.__init__` does raise a `ConfigError` before any scheduling
is set up, but `main` swallows the exception and the process exits with
status 0, not non-zero; likewise for a missing `CHAT_ID` and for a
non-integer `CHAT_ID` of "abc". -/
theorem config_error_exit_code :
    SimpleAnkiBot_init none (some "123") = .error .missingToken ∧
    main_exit_after_init none (some "123") = some 0 ∧
    SimpleAnkiBot_init (some "tok") none = .error .missingChatId ∧
    main_exit_after_init (some "tok") none = some 0 ∧
    SimpleAnkiBot_init (some "tok") (some "abc") = .error .invalidChatId ∧
    main_exit_after_init (some "tok") (some "abc") = some 0 := by
  exact ⟨rfl, rfl, rfl, rfl, rfl, rfl⟩

/-- C4, counterexample: when the durable-store read fails with anything
other than `FileNotFoundError`, the daily-trigger callback propagates the
error to its caller instead of treating completion as false —
`load_completion_status` only catches `FileNotFoundError` and
`send_daily_reminder` has no exception handler. -/
theorem store_read_failure_cex :
    send_daily_reminder true "2024-01-10" { file := .failure, sent := [] }
      = .error .storeError := by
  rfl

/-- C4, amended: a missing store file (`FileNotFoundError`) is treated as
completion status false, and `handle_image_message` swallows a failing
read and leaves the state unchanged; but any other read failure
propagates unhandled out of both `send_daily_reminder` and
`send_followup_reminder`. -/
theorem store_read_failure_amended (d : String) (cm hp ok : Bool)
    (l : List (MsgKind × Bool)) :
    is_completed_today d .missing = .ok false ∧
    send_daily_reminder ok d { file := .failure, sent := l } = .error .storeError ∧
    send_followup_reminder ok d { file := .failure, sent := l } = .error .storeError ∧
    handle_image_message cm hp ok d { file := .failure, sent := l }
      = { file := .failure, sent := l } := by
  refine ⟨rfl, rfl, rfl, ?_⟩
  cases cm <;> cases hp <;> rfl

/-- C5: the activity signal is idempotent per date: if the completion
status for the current date is already true, a further qualifying inbound
event leaves the state (store and send trace) unchanged and sends nothing;
and applying the handler a second time right after a first is always a
no-op, so at most one congratulation is sent per date. -/
theorem signal_activity_idempotent (m : StatusMap) (d : String) (ok ok1 : Bool)
    (l : List (MsgKind × Bool)) :
    (statusGet m d = true →
      handle_image_message true true ok d { file := .content m, sent := l }
        = { file := .content m, sent := l }) ∧
    handle_image_message true true ok1 d
        (handle_image_message true true ok d { file := .content m, sent := l })
      = handle_image_message true true ok d { file := .content m, sent := l } := by
  constructor
  · intro h
    simp [handle_image_message_content, h]
  · by_cases h : statusGet m d <;>
      simp [handle_image_message_content, h, statusGet_statusSet]

/-- C5, witness: with 2024-01-10 already completed in the store, a
qualifying inbound event on 2024-01-10 changes nothing. -/
theorem signal_activity_idempotent_witness :
    statusGet [("2024-01-10", true)] "2024-01-10" = true ∧
    handle_image_message true true true "2024-01-10"
        { file := .content [("2024-01-10", true)], sent := [] }
      = { file := .content [("2024-01-10", true)], sent := [] } :=
  ⟨by decide,
   (signal_activity_idempotent [("2024-01-10", true)] "2024-01-10" true true []).1 (by decide)⟩

/-- C6: if a qualifying activity signal is processed for date `d`, then a
subsequent daily trigger for `d` returns the state unchanged (no primary
reminder) and a subsequent follow-up trigger for `d` returns the state
unchanged (no follow-up reminder). -/
theorem activity_before_triggers (m : StatusMap) (d : String) (ok1 ok2 ok3 : Bool)
    (l : List (MsgKind × Bool)) :
    send_daily_reminder ok2 d
        (handle_image_message true true ok1 d { file := .content m, sent := l })
      = .ok (handle_image_message true true ok1 d { file := .content m, sent := l }) ∧
    send_followup_reminder ok3 d
        (handle_image_message true true ok1 d { file := .content m, sent := l })
      = .ok (handle_image_message true true ok1 d { file := .content m, sent := l }) := by
  by_cases h : statusGet m d <;>
    simp [handle_image_message_content, h, send_daily_reminder_content,
      send_followup_reminder_content, statusGet_statusSet]

/-- C7: when a qualifying activity event is processed for a not-yet
completed date, the completion flag is written to the durable store even
though the congratulation send fails (`ok = false`): the final store has
`completed(d) = true` and the failed attempt is merely appended to the
trace; and a failed `send_message_with_image` never touches the store. -/
theorem failed_send_no_rollback (m : StatusMap) (d : String) (l : List (MsgKind × Bool))
    (k : MsgKind) (s : BotState) (h : statusGet m d = false) :
    handle_image_message true true false d { file := .content m, sent := l }
      = { file := .content (statusSet m d true),
          sent := l ++ [(.congratulation, false)] } ∧
    statusGet (statusSet m d true) d = true ∧
    (send_message_with_image false k s).file = s.file := by
  refine ⟨?_, ?_, rfl⟩
  · simp [handle_image_message_content, h]
  · simp [statusGet_statusSet]

/-- C7, witness: from an empty store on 2024-01-10, a qualifying event with
a failing transport still persists completion. -/
theorem failed_send_no_rollback_witness :
    statusGet [] "2024-01-10" = false ∧
    handle_image_message true true false "2024-01-10" { file := .content [], sent := [] }
      = { file := .content [("2024-01-10", true)],
          sent := [(.congratulation, false)] } :=
  ⟨by decide,
   (failed_send_no_rollback [] "2024-01-10" [] .primary
     { file := .content [], sent := [] } (by decide)).1⟩

/-- Single-step preservation: no entry point ever turns a date's recorded
completion from true back to false. -/
theorem completedIn_stepOp (o : Op) (s : BotState) (d : String)
    (h : completedIn s d = true) : completedIn (stepOp o s) d = true := by
  obtain ⟨f, l⟩ := s
  cases f with
  | missing => simp [completedIn] at h
  | failure => simp [completedIn] at h
  | content m =>
    simp [completedIn] at h
    cases o with
    | daily ok e =>
      by_cases he : statusGet m e <;>
        simp [stepOp, exceptStep, send_daily_reminder_content, he, completedIn, h]
    | followup ok e =>
      by_cases he : statusGet m e <;>
        simp [stepOp, exceptStep, send_followup_reminder_content, he, completedIn, h]
    | midnight => simp [stepOp, reset_daily_flags, completedIn, h]
    | activity cm hp ok e =>
      by_cases hc : cm && hp && !(statusGet m e)
      · by_cases hde : d = e <;>
          simp [stepOp, handle_image_message_content, hc, completedIn,
            statusGet_statusSet, hde, h]
      · simp [stepOp, handle_image_message_content, hc, completedIn, h]

/-- C8: no transition leaves Done — once the durable store records date
`d` as completed, no sequence of daily triggers, follow-up triggers,
midnight triggers and activity signals (for any dates, with any transport
health) ever makes it false again. -/
theorem completed_is_terminal (ops : List Op) (s : BotState) (d : String)
    (h : completedIn s d = true) : completedIn (runOps ops s) d = true := by
  induction ops generalizing s with
  | nil => simpa [runOps] using h
  | cons o rest ih =>
    simpa [runOps] using ih (stepOp o s) (completedIn_stepOp o s d h)

/-- C8, witness: a day of triggers, a duplicate activity signal and the
midnight trigger leave 2024-01-10 completed. -/
theorem completed_is_terminal_witness :
    completedIn { file := .content [("2024-01-10", true)], sent := [] } "2024-01-10" = true ∧
    completedIn (runOps
        [Op.daily true "2024-01-10", Op.followup true "2024-01-10",
         Op.activity true true true "2024-01-10", Op.midnight,
         Op.daily true "2024-01-11"]
        { file := .content [("2024-01-10", true)], sent := [] }) "2024-01-10" = true :=
  ⟨by decide,
   completed_is_terminal
     [Op.daily true "2024-01-10", Op.followup true "2024-01-10",
      Op.activity true true true "2024-01-10", Op.midnight,
      Op.daily true "2024-01-11"]
     { file := .content [("2024-01-10", true)], sent := [] } "2024-01-10" (by decide)⟩

/-- C9: restart simulation — a fresh instance (empty send trace) whose
durable store records the current date `d` as completed does not send a
primary reminder when the daily trigger fires: the call returns the state
unchanged. -/
theorem restart_preserves_completion (m : StatusMap) (d : String) (ok : Bool)
    (h : statusGet m d = true) :
    send_daily_reminder ok d { file := .content m, sent := [] }
      = .ok { file := .content m, sent := [] } := by
  simp [send_daily_reminder_content, h]

/-- C9, witness: store persisted with 2024-01-10 completed; the fresh
instance's daily trigger is a no-op. -/
theorem restart_preserves_completion_witness :
    statusGet [("2024-01-10", true)] "2024-01-10" = true ∧
    send_daily_reminder true "2024-01-10"
        { file := .content [("2024-01-10", true)], sent := [] }
      = .ok { file := .content [("2024-01-10", true)], sent := [] } :=
  ⟨by decide,
   restart_preserves_completion [("2024-01-10", true)] "2024-01-10" true (by decide)⟩

/-- C10: frame property of `mark_completed_today` — it maps store content
`m` to `statusSet m d true`, which holds `true` at the current date `d`
and is unchanged at every other key: entries for older dates are
preserved, not deleted. -/
theorem mark_completed_frame (m : StatusMap) (d e : String) :
    mark_completed_today d (.content m) = .ok (.content (statusSet m d true)) ∧
    List.lookup d (statusSet m d true) = some true ∧
    (¬ e = d → List.lookup e (statusSet m d true) = List.lookup e m) := by
  exact ⟨rfl, lookup_statusSet_self m d true,
    fun h => lookup_statusSet_ne m e d true h⟩

/-- C10, witness: marking 2024-01-10 completed preserves the record of
2024-01-09. -/
theorem mark_completed_frame_witness :
    ¬ ("2024-01-09" = "2024-01-10") ∧
    List.lookup "2024-01-09" (statusSet [("2024-01-09", true)] "2024-01-10" true)
      = List.lookup "2024-01-09" [("2024-01-09", true)] :=
  ⟨by decide,
   (mark_completed_frame [("2024-01-09", true)] "2024-01-10" "2024-01-09").2.2 (by decide)⟩

end AnkiBot
